import Mathlib

/-!
Verification of the Stricker server simulation core
(`src/server/src/classes/Animation.ts`: classes `Animation`, `Game`,
`Character`; `src/server/src/index.ts`: game loop).

The TypeScript classes are shallowly embedded as Lean structures with
explicit state passing.  Positions are rationals (TS `number`s here only
ever arise from integer literals and the diagonal factor 0.7071), health
is an integer, animation counters are naturals.  Socket emissions are
returned as explicit event lists.
-/

namespace Stricker

/-- 2D vector of rationals (TS `{x: number, y: number}`). -/
structure Vec2 where
  x : ℚ
  y : ℚ
deriving DecidableEq, Repr

/-- An axis-aligned box given by a size and an offset from a world
position (hurtboxes and attack hitboxes). -/
structure Box where
  size : Vec2
  offset : Vec2
deriving DecidableEq, Repr

/-- `Game.checkCollisions` — strict AABB overlap test, transcribed from
the four-conjunct boolean expression in the source. -/
def checkCollisions (box1 : Box) (box1Position : Vec2)
    (box2 : Box) (box2Position : Vec2) : Bool :=
  decide (box1Position.x + box1.offset.x
            < box2Position.x + box2.offset.x + box2.size.x) &&
  decide (box1Position.x + box1.offset.x + box1.size.x
            > box2Position.x + box2.offset.x) &&
  decide (box1Position.y + box1.offset.y
            < box2Position.y + box2.offset.y + box2.size.y) &&
  decide (box1Position.y + box1.offset.y + box1.size.y
            > box2Position.y + box2.offset.y)

/-- State of one `Animation` instance.  `onIdx` records the set of
indices at which a callback has been registered with
`setOnIndexMethod` (the callback bodies themselves are run by the
owner, see `Character.update`). -/
structure AnimState where
  name : String
  startFrame : ℕ
  frames : ℕ
  framePerIndex : ℕ
  loop : Bool
  isDone : Bool
  frame : ℕ
  index : ℕ
  pauseFrames : ℕ
  onIdx : List ℕ
deriving DecidableEq, Repr

namespace Animation

/-- The `Animation` constructor: counters zeroed, not done, no pause. -/
def make (name : String) (startFrame frames framePerIndex : ℕ)
    (loop : Bool) : AnimState :=
  { name := name, startFrame := startFrame, frames := frames
    framePerIndex := framePerIndex, loop := loop
    isDone := false, frame := 0, index := 0, pauseFrames := 0, onIdx := [] }

/-- `Animation.update`.  Returns the new state together with the index
whose registered callback fired this call (`none` if no registered
callback ran).  In the source the callback body runs between the
`onIndexMethods` lookup and the end-of-animation check; the only
callbacks the program registers (`doAttack`, which may call `Pause` on
this same animation and mutate other characters) touch only
`pauseFrames` and other objects, fields the end-of-animation check
neither reads nor writes, so returning the fired index and applying the
callback effects after `updateStep` computes the same state. -/
def updateStep (a : AnimState) : AnimState × Option ℕ :=
  if a.isDone then (a, none)
  else if a.pauseFrames > 0 then
    ({ a with pauseFrames := a.pauseFrames - 1 }, none)
  else
    let frame := a.frame + 1
    if frame = a.framePerIndex then
      let index := a.index + 1
      let fired := if index ∈ a.onIdx then some index else none
      if index ≥ a.frames then
        if a.loop then
          ({ a with frame := 0, index := 0 }, fired)
        else
          ({ a with frame := 0, index := a.frames - 1, isDone := true }, fired)
      else
        ({ a with frame := 0, index := index }, fired)
    else
      ({ a with frame := frame }, none)

/-- `Animation.update` viewed as a pure state transformer (callback
effects projected away; used for claims about the sequencer alone). -/
def update (a : AnimState) : AnimState :=
  (updateStep a).1

/-- `Animation.setOnIndexMethod` — registers a callback at an index
(the callback body is handled by the owner; here we record the index). -/
def setOnIndexMethod (a : AnimState) (index : ℕ) : AnimState :=
  { a with onIdx := a.onIdx.insert index }

/-- `Animation.Pause` — sets the pause counter. -/
def Pause (a : AnimState) (frames : ℕ) : AnimState :=
  { a with pauseFrames := frames }

/-- `Animation.reset`. -/
def reset (a : AnimState) : AnimState :=
  { a with isDone := false, frame := 0, index := 0, pauseFrames := 0 }

/-- `Animation.getCurrentFrame` — base frame plus current index. -/
def getCurrentFrame (a : AnimState) : ℕ :=
  a.startFrame + a.index

/-- The three operations a client of the sequencer can perform. -/
inductive Op where
  | update : Op
  | pause : ℕ → Op
  | reset : Op
deriving DecidableEq, Repr

/-- Apply one operation. -/
def applyOp (a : AnimState) : Op → AnimState
  | Op.update => update a
  | Op.pause n => Pause a n
  | Op.reset => reset a

/-- Apply a sequence of operations, first element first. -/
def applyOps (a : AnimState) : List Op → AnimState
  | [] => a
  | o :: os => applyOps (applyOp a o) os

end Animation

end Stricker



namespace Stricker

/-! ## The `Character` class -/

/-- Names of the eight animations in a character's animation table
(`this.animations`); `this.animation` is modelled as one of these keys
(`Character.current`). -/
inductive AnimKey where
  | stand
  | standR
  | run
  | runR
  | hurt
  | hurtR
  | punch
  | punchR
deriving DecidableEq, Repr

/-- The per-character animation table. -/
structure Anims where
  stand : AnimState
  standR : AnimState
  run : AnimState
  runR : AnimState
  hurt : AnimState
  hurtR : AnimState
  punch : AnimState
  punchR : AnimState
deriving DecidableEq, Repr

/-- Look up an animation in the table. -/
def Anims.get (A : Anims) : AnimKey → AnimState
  | AnimKey.stand => A.stand
  | AnimKey.standR => A.standR
  | AnimKey.run => A.run
  | AnimKey.runR => A.runR
  | AnimKey.hurt => A.hurt
  | AnimKey.hurtR => A.hurtR
  | AnimKey.punch => A.punch
  | AnimKey.punchR => A.punchR

/-- Replace an animation in the table. -/
def Anims.set (A : Anims) : AnimKey → AnimState → Anims
  | AnimKey.stand, a => { A with stand := a }
  | AnimKey.standR, a => { A with standR := a }
  | AnimKey.run, a => { A with run := a }
  | AnimKey.runR, a => { A with runR := a }
  | AnimKey.hurt, a => { A with hurt := a }
  | AnimKey.hurtR, a => { A with hurtR := a }
  | AnimKey.punch, a => { A with punch := a }
  | AnimKey.punchR, a => { A with punchR := a }

/-- The action string constants (`this.actions`). -/
def actionNONE : String := "none"

/-- `this.actions.HURT`. -/
def actionHURT : String := "hurt"

/-- `this.actions.ATTACK.PUNCH`. -/
def actionATTACK_PUNCH : String := "attack.punch"

/-- `this.moveSpeed`. -/
def moveSpeed : Vec2 := ⟨6, 4⟩

/-- `this.hurtBox` — identical for every character. -/
def hurtBox : Box := ⟨⟨44, 12⟩, ⟨-22, -6⟩⟩

/-- One attack configuration. -/
structure Attack where
  hitBox : Box
deriving DecidableEq, Repr

/-- `this.attacks` — the record of attack configurations, keyed by
attack-type string. -/
def attacks (attackType : String) : Option Attack :=
  if attackType = "punch" then some ⟨⟨⟨56, 24⟩, ⟨-56, -12⟩⟩⟩
  else if attackType = "punchR" then some ⟨⟨⟨56, 24⟩, ⟨0, -12⟩⟩⟩
  else none

/-- The `PlayerData` snapshot entry (`server/src/types`). -/
structure PlayerData where
  id : String
  name : String
  health : ℤ
  position : Vec2
  facingRight : Bool
  color : String
  animName : String
  animIndex : ℕ
deriving DecidableEq, Repr

/-- Addressing of a socket emission: `io.emit` goes to every session,
`io.to(id).emit` only to that session. -/
inductive EmitTarget where
  | all : EmitTarget
  | session : String → EmitTarget
deriving DecidableEq, Repr

/-- Payloads of the outbound events the simulation core produces. -/
inductive Payload where
  | playerDeath : String → Option String → Payload
  | gameStatus : List PlayerData → ℕ → ℤ → Payload
deriving DecidableEq, Repr

/-- One socket emission. -/
structure Emission where
  target : EmitTarget
  payload : Payload
deriving DecidableEq, Repr

/-- State of one `Character`. -/
structure Character where
  id : String
  name : String
  health : ℤ
  color : String
  input : List String
  position : Vec2
  facingRight : Bool
  action : String
  anims : Anims
  current : AnimKey
deriving DecidableEq, Repr

/-- The animation table as built in the `Character` constructor,
including the two punch-attack callbacks registered at index 3. -/
def initAnims : Anims :=
  { stand := Animation.make "stickman" 0 3 4 true
    standR := Animation.make "stickmanR" 0 3 4 true
    run := Animation.make "stickman" 3 4 3 true
    runR := Animation.make "stickmanR" 3 4 3 true
    hurt := Animation.make "stickman" 7 5 3 false
    hurtR := Animation.make "stickmanR" 7 5 3 false
    punch :=
      Animation.setOnIndexMethod (Animation.make "stickmanAttacks" 0 6 3 false) 3
    punchR :=
      Animation.setOnIndexMethod
        (Animation.make "stickmanAttacksR" 0 6 3 false) 3 }

/-- `generateColor` — sum of the character codes of the id, reduced
mod 360, rendered as an HSL string (for the ids in play, `Char.toNat`
agrees with the UTF-16 code units the source sums). -/
def generateColor (id : String) : String :=
  let hash := (id.toList.map Char.toNat).sum
  let hue := hash % 360
  "hsl(" ++ toString hue ++ ", 70%, 50%)"

/-- The `Character` constructor. -/
def Character.init (id : String) : Character :=
  { id := id, name := "Player", health := 100, color := generateColor id
    input := [], position := ⟨100, 100⟩, facingRight := true
    action := actionNONE, anims := initAnims, current := AnimKey.stand }

/-- The animation currently pointed at by `this.animation`. -/
def Character.currentAnim (c : Character) : AnimState :=
  c.anims.get c.current

/-- `Character.getPlayerInfo` — the public snapshot of a character. -/
def Character.getPlayerInfo (c : Character) : PlayerData :=
  { id := c.id, name := c.name, health := c.health, position := c.position
    facingRight := c.facingRight, color := c.color
    animName := (Character.currentAnim c).name
    animIndex := Animation.getCurrentFrame (Character.currentAnim c) }

/-- Write back through the `this.animation` pointer. -/
def Character.setCurrentAnim (c : Character) (a : AnimState) : Character :=
  { c with anims := c.anims.set c.current a }

/-- `Character.setName`. -/
def Character.setName (c : Character) (name : String) : Character :=
  { c with name := name }

/-- `Character.setKeys` — records any pressed key in the input set and
deletes it on release (the JS object is modelled as a duplicate-free
list of keys). -/
def Character.setKeys (c : Character) (key : String) (pressed : Bool) :
    Character :=
  if pressed then { c with input := c.input.insert key }
  else { c with input := c.input.erase key }

/-- `Character.move` — diagonal movement is scaled by 0.7071. -/
def Character.move (c : Character) (dx dy : ℤ) : Character :=
  if dx ≠ 0 ∧ dy ≠ 0 then
    { c with position :=
        ⟨c.position.x + dx * moveSpeed.x * (7071 / 10000 : ℚ),
         c.position.y + dy * moveSpeed.y * (7071 / 10000 : ℚ)⟩ }
  else
    { c with position :=
        ⟨c.position.x + dx * moveSpeed.x,
         c.position.y + dy * moveSpeed.y⟩ }

/-- `Character.hurt` — enter the HURT action, select the
facing-appropriate hurt clip and reset it. -/
def Character.hurt (c : Character) : Character :=
  let key := if !c.facingRight then AnimKey.hurt else AnimKey.hurtR
  let c1 := { c with action := actionHURT, current := key }
  Character.setCurrentAnim c1 (Animation.reset (Character.currentAnim c1))

/-- `Character.resetToDeadState`. -/
def Character.resetToDeadState (c : Character) : Character :=
  { c with health := 0, action := actionNONE, input := []
           position := ⟨-100, -100⟩ }

/-- `Character.handleDeath` — emit `player-death` to this character's
own session only, then reset to the dead state. -/
def Character.handleDeath (c : Character) : Character × List Emission :=
  (Character.resetToDeadState c,
   [⟨EmitTarget.session c.id,
     Payload.playerDeath "You died! Respawn to continue playing." none⟩])

/-- `Character.takeDamage`. -/
def Character.takeDamage (c : Character) (amount : ℤ) :
    Character × List Emission :=
  let h := c.health - amount
  if h ≤ 0 then Character.handleDeath { c with health := 0 }
  else ({ c with health := h }, [])

/-- `Character.respawn` — the two `Math.random()` draws are passed in
as explicit parameters `r1`, `r2`. -/
def Character.respawn (c : Character) (r1 r2 : ℚ) : Character :=
  { c with health := 100
           position := ⟨100 + r1 * 200, 100 + r2 * 200⟩
           action := actionNONE, input := [], facingRight := true
           current := AnimKey.stand }

/-- `this.animation.Pause(n)` on a character. -/
def Character.pauseCurrent (c : Character) (n : ℕ) : Character :=
  Character.setCurrentAnim c (Animation.Pause (Character.currentAnim c) n)

/-- The body of the `players.forEach` loop in `Character.doAttack`:
each colliding other player is hurt, damaged by 10, and both the
attacker's and the victim's current animations are paused 5 ticks. -/
def Character.doAttackLoop (self : Character) (atk : Attack) :
    List Character → Character × List Character × List Emission
  | [] => (self, [], [])
  | p :: rest =>
      if p.id ≠ self.id ∧
          checkCollisions atk.hitBox self.position hurtBox p.position = true then
        let pr := Character.takeDamage (Character.hurt p) 10
        let self2 := Character.pauseCurrent self 5
        let p3 := Character.pauseCurrent pr.1 5
        let r := Character.doAttackLoop self2 atk rest
        (r.1, p3 :: r.2.1, pr.2 ++ r.2.2)
      else
        let r := Character.doAttackLoop self atk rest
        (r.1, p :: r.2.1, r.2.2)

/-- `Character.doAttack` — resolve an attack of the given type against
a list of players (the list plays the role of
`Object.values(this.game.players)`; the attacker itself is skipped via
the id test inside the loop). -/
def Character.doAttack (self : Character) (attackType : String)
    (players : List Character) : Character × List Character × List Emission :=
  match attacks attackType with
  | none => (self, players, [])
  | some atk => Character.doAttackLoop self atk players

/-- Horizontal input delta (`dx` in `Character.update`). -/
def dxOf (input : List String) : ℤ :=
  (if "LEFT" ∈ input then -1 else 0) + (if "RIGHT" ∈ input then 1 else 0)

/-- Vertical input delta (`dy` in `Character.update`). -/
def dyOf (input : List String) : ℤ :=
  (if "UP" ∈ input then -1 else 0) + (if "DOWN" ∈ input then 1 else 0)

/-- Whether the ATTACK key is held (`this.input.ATTACK`). -/
def atkOf (input : List String) : Bool :=
  decide ("ATTACK" ∈ input)

/-- `Character.enforceBoundaries` — the four sequential clamping
conditionals, applied to a position. -/
def enforceBoundaries (p : Vec2) : Vec2 :=
  let x1 := if p.x < 0 then 0 else p.x
  let y1 := if p.y < 0 then 0 else p.y
  let x2 := if x1 > 970 then 970 else x1
  let y2 := if y1 > 600 then 600 else y1
  ⟨x2, y2⟩

/-- The `switch (this.action)` block of `Character.update`. -/
def Character.dispatch (c : Character) (dx dy : ℤ) : Character :=
  if c.action = actionNONE then
    let cm := Character.move c dx dy
    let cf := { cm with facingRight := !(decide (dx < 0)) }
    let ca :=
      if dx = 0 ∧ dy = 0 then
        { cf with current :=
            if cf.facingRight then AnimKey.standR else AnimKey.stand }
      else
        { cf with current :=
            if cf.facingRight then AnimKey.runR else AnimKey.run }
    if atkOf ca.input then
      let key := if ca.facingRight then AnimKey.punchR else AnimKey.punch
      let cb := { ca with action := actionATTACK_PUNCH, current := key }
      Character.setCurrentAnim cb (Animation.reset (Character.currentAnim cb))
    else ca
  else if c.action = actionHURT then
    if (Character.currentAnim c).isDone then
      { c with action := actionNONE
               current := if c.facingRight then AnimKey.standR
                          else AnimKey.stand }
    else c
  else if c.action = actionATTACK_PUNCH then
    if (Character.currentAnim c).isDone then
      { c with action := actionNONE
               current := if c.facingRight then AnimKey.standR
                          else AnimKey.stand }
    else c
  else c

/-- `Character.update` up to (excluding) the final
`this.enforceBoundaries()` call: advance the current animation (running
the punch-trigger callback when it fires) and dispatch on the action
state.  `players` is the list the punch callbacks close over,
`Object.values(this.game.players)`; the returned list is the
post-attack state of those players and the emission list collects any
death notifications produced by the attack. -/
def Character.updateCore (c : Character) (players : List Character) :
    Character × List Character × List Emission :=
  let dy := dyOf c.input
  let dx := dxOf c.input
  let st := Animation.updateStep (Character.currentAnim c)
  let c1 := Character.setCurrentAnim c st.1
  let r :=
    match st.2 with
    | some _ =>
        match c.current with
        | AnimKey.punch => Character.doAttack c1 "punch" players
        | AnimKey.punchR => Character.doAttack c1 "punchR" players
        | _ => (c1, players, [])
    | none => (c1, players, [])
  (Character.dispatch r.1 dx dy, r.2.1, r.2.2)

/-- `Character.update` proper: the body above followed by the final
`this.enforceBoundaries()` call. -/
def Character.update (c : Character) (players : List Character) :
    Character × List Character × List Emission :=
  let r := Character.updateCore c players
  ({ r.1 with position := enforceBoundaries r.1.position }, r.2.1, r.2.2)

/-- `Game.broadcastGameState` — builds the snapshot once, then loops
over the player map emitting the same global `game-status` broadcast
once per player.  `now` stands for `Date.now()`. -/
def Game.broadcastGameState (players : List Character) (now : ℤ) :
    List Emission :=
  let playerData := players.map Character.getPlayerInfo
  players.map fun _ =>
    ⟨EmitTarget.all, Payload.gameStatus playerData playerData.length now⟩

/-! ## Spec-side definitions and analysis helpers -/

/-- The spec's arena rectangle `[0,970] x [0,600]`. -/
def inArena (p : Vec2) : Prop :=
  0 ≤ p.x ∧ p.x ≤ 970 ∧ 0 ≤ p.y ∧ p.y ≤ 600

/-- Clamp a coordinate to its nearest boundary value, as the spec words
the boundary rule ("that coordinate being set exactly to the nearest
boundary value"). -/
def specClamp (v lo hi : ℚ) : ℚ :=
  if v < lo then lo else if v > hi then hi else v

/-- Modelled from the spec's wording of the Collision Resolver
contract: the two rectangles "overlap (open-interval AABB overlap test
on both axes)" — on each axis the open intervals spanned by the boxes
intersect. -/
def specStrictOverlap (box1 : Box) (p1 : Vec2) (box2 : Box) (p2 : Vec2) :
    Prop :=
  max (p1.x + box1.offset.x) (p2.x + box2.offset.x)
      < min (p1.x + box1.offset.x + box1.size.x)
            (p2.x + box2.offset.x + box2.size.x) ∧
  max (p1.y + box1.offset.y) (p2.y + box2.offset.y)
      < min (p1.y + box1.offset.y + box1.size.y)
            (p2.y + box2.offset.y + box2.size.y)

/-- The hit test of `Character.doAttack`'s loop body, as a boolean:
the candidate is not the attacker itself and its hurtbox overlaps the
attack's hitbox at the attacker's position. -/
def hitByB (self : Character) (atk : Attack) (p : Character) : Bool :=
  decide (p.id ≠ self.id) &&
    checkCollisions atk.hitBox self.position hurtBox p.position

/-- What `doAttack` does to a colliding victim: `hurt()`, then
`takeDamage(10)`, then `animation.Pause(5)`. -/
def hitVictim (p : Character) : Character :=
  Character.pauseCurrent (Character.takeDamage (Character.hurt p) 10).1 5

/-- The death emissions `doAttack` produces for a colliding victim. -/
def hitVictimEmissions (p : Character) : List Emission :=
  (Character.takeDamage (Character.hurt p) 10).2

/-- The single-entity operations that can touch an entity's vitals over
its lifetime: receiving a full punch hit, a raw `takeDamage` call, a
respawn (with the two random draws made explicit), and a join
(`setName`). -/
inductive CharOp where
  | hit : CharOp
  | damage : ℕ → CharOp
  | respawn : ℚ → ℚ → CharOp
  | join : String → CharOp
deriving DecidableEq, Repr

/-- Apply one lifetime operation. -/
def applyCharOp (c : Character) : CharOp → Character
  | CharOp.hit => hitVictim c
  | CharOp.damage n => (Character.takeDamage c (n : ℤ)).1
  | CharOp.respawn r1 r2 => Character.respawn c r1 r2
  | CharOp.join nm => Character.setName c nm

/-- Apply a sequence of lifetime operations, first element first. -/
def applyCharOps (c : Character) : List CharOp → Character
  | [] => c
  | o :: os => applyCharOps (applyCharOp c o) os

/-! Concrete characters used to exercise the attack-resolution path:
an attacker whose punch-right animation is one update away from the
trigger index 3, and targets standing 50 units to its right. -/

/-- Attacker at (100,100), facing right, mid-punch: the punchR clip at
`frame = 2`, `index = 2`, so the next update fires the index-3
callback. -/
def atkA : Character :=
  { Character.init "A" with
      action := actionATTACK_PUNCH
      current := AnimKey.punchR
      anims := Anims.set initAnims AnimKey.punchR
        { Animation.setOnIndexMethod
            (Animation.make "stickmanAttacksR" 0 6 3 false) 3 with
            frame := 2, index := 2 } }

/-- A target at (150,100) with 10 health — one hit from death. -/
def tgtB : Character :=
  { Character.init "B" with health := 10, position := ⟨150, 100⟩ }

/-- A target at (150,100) with full health. -/
def tgtC : Character :=
  { Character.init "C" with position := ⟨150, 100⟩ }

end Stricker

namespace Stricker

/-- An already-done animation is a fixed point of `update`. -/
lemma Animation.update_done {a : AnimState} (h : a.isDone = true) :
    Animation.update a = a := by
  simp [Animation.update, Animation.updateStep, h]

/-- Iterating `update` past a done state changes nothing. -/
lemma Animation.iterate_update_done {a : AnimState} (h : a.isDone = true)
    (n : ℕ) : Animation.update^[n] a = a := by
  induction n with
  | zero => rfl
  | succ k ih =>
      rw [Function.iterate_succ_apply, Animation.update_done h, ih]

/-- `update` preserves the configuration fields. -/
lemma Animation.update_config (a : AnimState) :
    (Animation.update a).frames = a.frames ∧
    (Animation.update a).framePerIndex = a.framePerIndex ∧
    (Animation.update a).startFrame = a.startFrame ∧
    (Animation.update a).loop = a.loop := by
  simp only [Animation.update, Animation.updateStep]
  split_ifs <;> simp_all

/-- `update` keeps the index below `frames` (for a state whose index is
already below `frames`, with at least one index). -/
lemma Animation.update_index_lt {a : AnimState}
    (hfr : 1 ≤ a.frames) (h : a.index < a.frames) :
    (Animation.update a).index < (Animation.update a).frames := by
  have hcfg := Animation.update_config a
  rw [hcfg.1]
  simp only [Animation.update, Animation.updateStep]
  split_ifs <;> simp_all <;> omega

/-- `applyOp` preserves the configuration fields. -/
lemma Animation.applyOp_config (a : AnimState) (o : Animation.Op) :
    (Animation.applyOp a o).frames = a.frames ∧
    (Animation.applyOp a o).startFrame = a.startFrame := by
  cases o with
  | update =>
      exact ⟨(Animation.update_config a).1, (Animation.update_config a).2.2.1⟩
  | pause n => exact ⟨rfl, rfl⟩
  | reset => exact ⟨rfl, rfl⟩

/-- `applyOp` keeps the index below `frames`. -/
lemma Animation.applyOp_index_lt {a : AnimState} (o : Animation.Op)
    (hfr : 1 ≤ a.frames) (h : a.index < a.frames) :
    (Animation.applyOp a o).index < (Animation.applyOp a o).frames := by
  cases o with
  | update => exact Animation.update_index_lt hfr h
  | pause n => simpa [Animation.applyOp, Animation.Pause] using h
  | reset => simpa [Animation.applyOp, Animation.reset] using hfr

/-- Main inductive step for the index-bound invariant: any sequence of
operations keeps the index below `frames` and preserves the
configuration fields. -/
lemma Animation.applyOps_inv (ops : List Animation.Op) (a : AnimState)
    (hfr : 1 ≤ a.frames) (h : a.index < a.frames) :
    (Animation.applyOps a ops).index < (Animation.applyOps a ops).frames ∧
    (Animation.applyOps a ops).frames = a.frames ∧
    (Animation.applyOps a ops).startFrame = a.startFrame := by
  induction ops generalizing a with
  | nil => exact ⟨h, rfl, rfl⟩
  | cons o os ih =>
      simp only [Animation.applyOps]
      have hcfg := Animation.applyOp_config a o
      have hlt := Animation.applyOp_index_lt o hfr h
      have ih2 := ih (Animation.applyOp a o) (hcfg.1 ▸ hfr) hlt
      exact ⟨ih2.1, by rw [ih2.2.1, hcfg.1], by rw [ih2.2.2, hcfg.2]⟩

end Stricker

namespace Stricker

/-- C10: for a sequencer with at least one index, any sequence of
`update`, `Pause`, `reset` calls starting from the constructed state
keeps the current index in `[0, frames-1]` (the loop flag does not
matter), so `getCurrentFrame` always lies in
`[startFrame, startFrame + frames - 1]`. -/
theorem anim_index_always_in_range
    (nm : String) (s fr fpi : ℕ) (lp : Bool) (ops : List Animation.Op)
    (hfr : 1 ≤ fr) :
    (Animation.applyOps (Animation.make nm s fr fpi lp) ops).index ≤ fr - 1 ∧
    s ≤ Animation.getCurrentFrame
          (Animation.applyOps (Animation.make nm s fr fpi lp) ops) ∧
    Animation.getCurrentFrame
          (Animation.applyOps (Animation.make nm s fr fpi lp) ops)
      ≤ s + (fr - 1) := by
  have h0 : (Animation.make nm s fr fpi lp).index
      < (Animation.make nm s fr fpi lp).frames := by
    simpa [Animation.make] using hfr
  have hinv := Animation.applyOps_inv ops (Animation.make nm s fr fpi lp)
    (by simpa [Animation.make] using hfr) h0
  have hfr2 : (Animation.applyOps (Animation.make nm s fr fpi lp) ops).frames
      = fr := by simpa [Animation.make] using hinv.2.1
  have hsf : (Animation.applyOps (Animation.make nm s fr fpi lp) ops).startFrame
      = s := by simpa [Animation.make] using hinv.2.2
  have hidx := hinv.1
  rw [hfr2] at hidx
  refine ⟨by omega, ?_, ?_⟩
  · simp [Animation.getCurrentFrame, hsf]
  · simp only [Animation.getCurrentFrame, hsf]
    omega

/-- Witness for `anim_index_always_in_range` at a concrete clip and
operation sequence. -/
theorem anim_index_always_in_range_witness :
    (Animation.applyOps (Animation.make "stickman" 7 5 3 false)
        [Animation.Op.update, Animation.Op.update, Animation.Op.update,
         Animation.Op.pause 2, Animation.Op.update,
         Animation.Op.update]).index ≤ 5 - 1 ∧
    7 ≤ Animation.getCurrentFrame
          (Animation.applyOps (Animation.make "stickman" 7 5 3 false)
            [Animation.Op.update, Animation.Op.update, Animation.Op.update,
             Animation.Op.pause 2, Animation.Op.update,
             Animation.Op.update]) ∧
    Animation.getCurrentFrame
          (Animation.applyOps (Animation.make "stickman" 7 5 3 false)
            [Animation.Op.update, Animation.Op.update, Animation.Op.update,
             Animation.Op.pause 2, Animation.Op.update,
             Animation.Op.update]) ≤ 7 + (5 - 1) :=
  anim_index_always_in_range "stickman" 7 5 3 false
    [Animation.Op.update, Animation.Op.update, Animation.Op.update,
     Animation.Op.pause 2, Animation.Op.update, Animation.Op.update]
    (by norm_num)

/-- C5: a sequencer constructed with `framePerIndex = 3`, `frames = 6`,
`loop = false` is not done after 17 updates, becomes done exactly at the
18th update with its index clamped to 5, and every further update is a
no-op, so `getCurrentFrame` stays constant thereafter. -/
theorem anim_done_after_18 (nm : String) (s : ℕ) :
    (Animation.update^[17] (Animation.make nm s 6 3 false)).isDone = false ∧
    (Animation.update^[18] (Animation.make nm s 6 3 false)).isDone = true ∧
    (Animation.update^[18] (Animation.make nm s 6 3 false)).index = 5 ∧
    ∀ n, 18 ≤ n →
      Animation.update^[n] (Animation.make nm s 6 3 false)
        = Animation.update^[18] (Animation.make nm s 6 3 false) := by
  have h18 : Animation.update^[18] (Animation.make nm s 6 3 false)
      = { name := nm, startFrame := s, frames := 6, framePerIndex := 3
          loop := false, isDone := true, frame := 0, index := 5
          pauseFrames := 0, onIdx := [] } := by
    simp [Function.iterate_succ_apply', Animation.update, Animation.updateStep,
      Animation.make]
  have h17 : Animation.update^[17] (Animation.make nm s 6 3 false)
      = { name := nm, startFrame := s, frames := 6, framePerIndex := 3
          loop := false, isDone := false, frame := 2, index := 5
          pauseFrames := 0, onIdx := [] } := by
    simp [Function.iterate_succ_apply', Animation.update, Animation.updateStep,
      Animation.make]
  refine ⟨by rw [h17], by rw [h18], by rw [h18], ?_⟩
  intro n hn
  obtain ⟨k, rfl⟩ : ∃ k, n = k + 18 := ⟨n - 18, by omega⟩
  rw [Function.iterate_add_apply]
  exact Animation.iterate_update_done (by rw [h18]) k

/-- Witness for `anim_done_after_18` at the punch clip configuration and
25 updates. -/
theorem anim_done_after_18_witness :
    (Animation.update^[17]
        (Animation.make "stickmanAttacks" 0 6 3 false)).isDone = false ∧
    Animation.update^[25] (Animation.make "stickmanAttacks" 0 6 3 false)
      = Animation.update^[18] (Animation.make "stickmanAttacks" 0 6 3 false) :=
  ⟨(anim_done_after_18 "stickmanAttacks" 0).1,
   (anim_done_after_18 "stickmanAttacks" 0).2.2.2 25 (by norm_num)⟩

/-- C6 counterexample: a looping two-index clip (`framePerIndex = 1`)
with a callback registered at index 0.  After two updates the sequencer
has wrapped from the last index back to index 0, yet neither update
fired the registered callback: the source checks `onIndexMethods` at
the incremented index (2, here) before wrapping it to 0, so a callback
at index 0 never runs on loop wrap-around. -/
theorem callback_missed_on_wrap :
    (Animation.updateStep
        ((Animation.updateStep
            (Animation.setOnIndexMethod
              (Animation.make "clip" 0 2 1 true) 0)).1)).1.index = 0 ∧
    (Animation.updateStep
        (Animation.setOnIndexMethod
          (Animation.make "clip" 0 2 1 true) 0)).2 = none ∧
    (Animation.updateStep
        ((Animation.updateStep
            (Animation.setOnIndexMethod
              (Animation.make "clip" 0 2 1 true) 0)).1)).2 = none := by
  decide

/-- C6 amended: a registered callback fires exactly at the moment the
index counter increments to its registration index — once per such
arrival (the update is live, unpaused, the sub-frame rolls over, and
the new index `index + 1` is registered).  An arrival at index 0 by
loop wrap-around is not an increment-arrival, so it fires no callback
registered at 0 (a callback registered at index = `frames` would fire
at the wrap moment instead). -/
theorem callback_fires_iff_increment_arrival (a : AnimState) :
    (Animation.updateStep a).2 =
      if a.isDone = false ∧ a.pauseFrames = 0 ∧ a.frame + 1 = a.framePerIndex
          ∧ (a.index + 1) ∈ a.onIdx
      then some (a.index + 1) else none := by
  simp only [Animation.updateStep]
  split_ifs <;> simp_all

end Stricker

namespace Stricker

/-! ## Collision resolver (C4) -/

/-- C4: `checkCollisions` returns `true` exactly when the two boxes,
applied at their positions, strictly overlap on both axes (the
open-interval AABB test), for boxes of positive size; and two boxes
that merely share an edge (box1's right edge equal to box2's left
edge) do not register as colliding. -/
theorem checkCollisions_iff_strict_overlap
    (b1 b2 : Box) (p1 p2 : Vec2)
    (h1x : 0 < b1.size.x) (h1y : 0 < b1.size.y)
    (h2x : 0 < b2.size.x) (h2y : 0 < b2.size.y) :
    (checkCollisions b1 p1 b2 p2 = true ↔ specStrictOverlap b1 p1 b2 p2) ∧
    (p1.x + b1.offset.x + b1.size.x = p2.x + b2.offset.x →
      checkCollisions b1 p1 b2 p2 = false) := by
  constructor
  · simp only [checkCollisions, Bool.and_eq_true, decide_eq_true_eq,
      specStrictOverlap, max_lt_iff, lt_min_iff, gt_iff_lt]
    constructor
    · rintro ⟨⟨⟨hA, hB⟩, hC⟩, hD⟩
      refine ⟨⟨⟨?_, ?_⟩, ?_, ?_⟩, ⟨?_, ?_⟩, ?_, ?_⟩ <;> linarith
    · rintro ⟨⟨⟨hq1, hq2⟩, hq3, hq4⟩, ⟨hq5, hq6⟩, hq7, hq8⟩
      refine ⟨⟨⟨?_, ?_⟩, ?_⟩, ?_⟩ <;> linarith
  · intro he
    rw [Bool.eq_false_iff]
    intro hc
    simp only [checkCollisions, Bool.and_eq_true, decide_eq_true_eq,
      gt_iff_lt] at hc
    obtain ⟨⟨⟨hA, hB⟩, hC⟩, hD⟩ := hc
    linarith

/-- Witness for `checkCollisions_iff_strict_overlap`: the facing-right
punch hitbox at (100,100) against the standard hurtbox at (150,100). -/
theorem checkCollisions_iff_strict_overlap_witness :
    (checkCollisions ⟨⟨56, 24⟩, ⟨0, -12⟩⟩ ⟨100, 100⟩
        ⟨⟨44, 12⟩, ⟨-22, -6⟩⟩ ⟨150, 100⟩ = true ↔
      specStrictOverlap ⟨⟨56, 24⟩, ⟨0, -12⟩⟩ ⟨100, 100⟩
        ⟨⟨44, 12⟩, ⟨-22, -6⟩⟩ ⟨150, 100⟩) ∧
    ((⟨100, 100⟩ : Vec2).x + (⟨⟨56, 24⟩, ⟨0, -12⟩⟩ : Box).offset.x
        + (⟨⟨56, 24⟩, ⟨0, -12⟩⟩ : Box).size.x
      = (⟨150, 100⟩ : Vec2).x + (⟨⟨44, 12⟩, ⟨-22, -6⟩⟩ : Box).offset.x →
      checkCollisions ⟨⟨56, 24⟩, ⟨0, -12⟩⟩ ⟨100, 100⟩
        ⟨⟨44, 12⟩, ⟨-22, -6⟩⟩ ⟨150, 100⟩ = false) :=
  checkCollisions_iff_strict_overlap _ _ _ _
    (by norm_num) (by norm_num) (by norm_num) (by norm_num)

/-! ## Health bounds (C2) -/

/-- `hurt` does not change health. -/
lemma hurt_health (c : Character) : (Character.hurt c).health = c.health :=
  rfl

/-- `pauseCurrent` does not change health. -/
lemma pauseCurrent_health (c : Character) (n : ℕ) :
    (Character.pauseCurrent c n).health = c.health :=
  rfl

/-- `takeDamage` with a nonneg amount keeps health within `[0, 100]`. -/
lemma takeDamage_health_bounds (c : Character) (n : ℤ) (hn : 0 ≤ n)
    (h0 : 0 ≤ c.health) (h1 : c.health ≤ 100) :
    0 ≤ (Character.takeDamage c n).1.health ∧
    (Character.takeDamage c n).1.health ≤ 100 := by
  simp only [Character.takeDamage]
  split_ifs with h
  · simp [Character.handleDeath, Character.resetToDeadState]
  · simp only []
    constructor <;> simp <;> omega

/-- One lifetime operation keeps health within `[0, 100]`. -/
lemma applyCharOp_health_bounds (c : Character) (o : CharOp)
    (h0 : 0 ≤ c.health) (h1 : c.health ≤ 100) :
    0 ≤ (applyCharOp c o).health ∧ (applyCharOp c o).health ≤ 100 := by
  cases o with
  | hit =>
      have hb := takeDamage_health_bounds (Character.hurt c) 10 (by norm_num)
        (by rw [hurt_health]; exact h0) (by rw [hurt_health]; exact h1)
      simpa [applyCharOp, hitVictim, pauseCurrent_health] using hb
  | damage n =>
      exact takeDamage_health_bounds c (n : ℤ) (by positivity) h0 h1
  | respawn r1 r2 => simp [applyCharOp, Character.respawn]
  | join nm => exact ⟨h0, h1⟩

/-- Any sequence of lifetime operations keeps health within `[0,100]`. -/
lemma applyCharOps_health_bounds (ops : List CharOp) (c : Character)
    (h0 : 0 ≤ c.health) (h1 : c.health ≤ 100) :
    0 ≤ (applyCharOps c ops).health ∧ (applyCharOps c ops).health ≤ 100 := by
  induction ops generalizing c with
  | nil => exact ⟨h0, h1⟩
  | cons o os ih =>
      have hb := applyCharOp_health_bounds c o h0 h1
      exact ih (applyCharOp c o) hb.1 hb.2

/-- C2: an entity's health starts at 100, is reset to 100 by respawn, a
damage amount that would push it negative clamps it to exactly 0, and
under every sequence of hits, damage applications, respawns and joins
it stays in the integer range `[0, 100]`. -/
theorem health_always_in_range (id : String) (ops : List CharOp) :
    (Character.init id).health = 100 ∧
    (∀ c r1 r2, (Character.respawn c r1 r2).health = 100) ∧
    (∀ (c : Character) (n : ℤ), c.health - n ≤ 0 →
      (Character.takeDamage c n).1.health = 0) ∧
    0 ≤ (applyCharOps (Character.init id) ops).health ∧
    (applyCharOps (Character.init id) ops).health ≤ 100 := by
  refine ⟨rfl, fun c r1 r2 => rfl, ?_, ?_⟩
  · intro c n h
    have h2 : c.health ≤ n := by omega
    simp [Character.takeDamage, h2, Character.handleDeath,
      Character.resetToDeadState]
  · exact applyCharOps_health_bounds ops (Character.init id)
      (by norm_num [Character.init]) (by norm_num [Character.init])

/-- Witness for `health_always_in_range`: a hit, an overkill damage
application and a respawn on a fresh entity. -/
theorem health_always_in_range_witness :
    0 ≤ (applyCharOps (Character.init "p1")
          [CharOp.hit, CharOp.damage 250, CharOp.respawn 0 0]).health ∧
    (applyCharOps (Character.init "p1")
          [CharOp.hit, CharOp.damage 250, CharOp.respawn 0 0]).health ≤ 100 ∧
    (Character.takeDamage { Character.init "p1" with health := 5 } 10).1.health
      = 0 :=
  ⟨(health_always_in_range "p1"
      [CharOp.hit, CharOp.damage 250, CharOp.respawn 0 0]).2.2.2.1,
   (health_always_in_range "p1"
      [CharOp.hit, CharOp.damage 250, CharOp.respawn 0 0]).2.2.2.2,
   (health_always_in_range "p1" []).2.2.1
      { Character.init "p1" with health := 5 } 10 (by norm_num)⟩

end Stricker

namespace Stricker

/-! ## Death transition (C3) -/

/-- C3: an entity whose health is at most the damage amount (e.g. 10)
receiving a 10-damage hit ends with health exactly 0, action forced to
NONE, input cleared, position moved to (-100,-100) — outside the arena
— and exactly one `player-death` event, addressed to that entity's own
session only. -/
theorem lethal_hit_death_transition (c : Character) (h : c.health ≤ 10) :
    (Character.takeDamage c 10).1.health = 0 ∧
    (Character.takeDamage c 10).1.action = actionNONE ∧
    (Character.takeDamage c 10).1.input = [] ∧
    (Character.takeDamage c 10).1.position = ⟨-100, -100⟩ ∧
    ¬ inArena (Character.takeDamage c 10).1.position ∧
    (Character.takeDamage c 10).2 =
      [⟨EmitTarget.session c.id,
        Payload.playerDeath "You died! Respawn to continue playing." none⟩] := by
  have hd : c.health - 10 ≤ 0 := by linarith
  have hTD : Character.takeDamage c 10 =
      (Character.resetToDeadState { c with health := 0 },
       [⟨EmitTarget.session c.id,
         Payload.playerDeath "You died! Respawn to continue playing." none⟩]) := by
    simp [Character.takeDamage, hd, Character.handleDeath]
  rw [hTD]
  refine ⟨rfl, rfl, rfl, rfl, ?_, rfl⟩
  norm_num [inArena, Character.resetToDeadState]

/-- A fresh entity brought down to 10 health. -/
def deadProbe : Character := { Character.init "p1" with health := 10 }

/-- Witness for `lethal_hit_death_transition` on `deadProbe`. -/
theorem lethal_hit_death_transition_witness :
    (Character.takeDamage deadProbe 10).1.health = 0 ∧
    (Character.takeDamage deadProbe 10).1.action = actionNONE ∧
    (Character.takeDamage deadProbe 10).1.input = [] ∧
    (Character.takeDamage deadProbe 10).1.position = ⟨-100, -100⟩ ∧
    ¬ inArena (Character.takeDamage deadProbe 10).1.position ∧
    (Character.takeDamage deadProbe 10).2 =
      [⟨EmitTarget.session deadProbe.id,
        Payload.playerDeath "You died! Respawn to continue playing." none⟩] :=
  lethal_hit_death_transition deadProbe (by norm_num [deadProbe, Character.init])

/-! ## Boundary clamping (C7) -/

/-- The sequential boundary conditionals compute the nearest-boundary
clamp on each axis. -/
lemma enforceBoundaries_eq_specClamp (p : Vec2) :
    enforceBoundaries p = ⟨specClamp p.x 0 970, specClamp p.y 0 600⟩ := by
  simp only [enforceBoundaries, specClamp]
  split_ifs <;> simp_all [Vec2.mk.injEq] <;> linarith

/-- The nearest-boundary clamp lands inside the interval. -/
lemma specClamp_mem (v lo hi : ℚ) (h : lo ≤ hi) :
    lo ≤ specClamp v lo hi ∧ specClamp v lo hi ≤ hi := by
  simp only [specClamp]
  split_ifs <;> constructor <;> linarith

/-- C7: after every `Character.update` the position is inside the arena
rectangle `[0,970] x [0,600]`, and each coordinate is exactly the
nearest-boundary clamp of the coordinate the update body (movement and
all) had produced before `enforceBoundaries` ran. -/
theorem position_clamped_after_update (c : Character)
    (players : List Character) :
    (Character.update c players).1.position =
      ⟨specClamp (Character.updateCore c players).1.position.x 0 970,
       specClamp (Character.updateCore c players).1.position.y 0 600⟩ ∧
    inArena (Character.update c players).1.position := by
  have h1 : (Character.update c players).1.position
      = enforceBoundaries (Character.updateCore c players).1.position := rfl
  rw [h1, enforceBoundaries_eq_specClamp]
  refine ⟨rfl, ?_⟩
  have hx := specClamp_mem (Character.updateCore c players).1.position.x 0 970
    (by norm_num)
  have hy := specClamp_mem (Character.updateCore c players).1.position.y 0 600
    (by norm_num)
  exact ⟨hx.1, hx.2, hy.1, hy.2⟩

/-! ## Unrecognized keys (C8) -/

/-- C8 counterexample: pressing an unrecognized key is *not* ignored by
`setKeys` — it is recorded in the entity's input set, so the input set
does change. -/
theorem unrecognized_key_recorded_in_input :
    (Character.setKeys (Character.init "p1") "JUMP" true).input ≠
      (Character.init "p1").input := by
  decide

/-- C8 amended: an unrecognized key is stored in the input set, but it
has no effect on gameplay: the per-tick movement deltas and the attack
trigger read only the five recognized keys, so all three derived
readings are unchanged by the press. -/
theorem unrecognized_key_no_gameplay_reading (c : Character) (key : String)
    (h : key ∉ (["UP", "DOWN", "LEFT", "RIGHT", "ATTACK"] : List String)) :
    dxOf (Character.setKeys c key true).input = dxOf c.input ∧
    dyOf (Character.setKeys c key true).input = dyOf c.input ∧
    atkOf (Character.setKeys c key true).input = atkOf c.input := by
  simp only [List.mem_cons, List.not_mem_nil, or_false, not_or] at h
  obtain ⟨h1, h2, h3, h4, h5⟩ := h
  refine ⟨?_, ?_, ?_⟩ <;>
    simp [dxOf, dyOf, atkOf, Character.setKeys, List.mem_insert_iff,
      Ne.symm h1, Ne.symm h2, Ne.symm h3, Ne.symm h4, Ne.symm h5]

/-- Witness for `unrecognized_key_no_gameplay_reading` with the key
"JUMP" on a fresh entity. -/
theorem unrecognized_key_no_gameplay_reading_witness :
    dxOf (Character.setKeys (Character.init "p1") "JUMP" true).input
      = dxOf (Character.init "p1").input ∧
    dyOf (Character.setKeys (Character.init "p1") "JUMP" true).input
      = dyOf (Character.init "p1").input ∧
    atkOf (Character.setKeys (Character.init "p1") "JUMP" true).input
      = atkOf (Character.init "p1").input :=
  unrecognized_key_no_gameplay_reading (Character.init "p1") "JUMP" (by decide)

/-! ## Broadcast cardinality (C9) -/

/-- C9 (code bug): `broadcastGameState` emits the global `game-status`
broadcast once per entity in the map — not once per tick.  With an
empty map nothing is emitted at all; with two players every session
receives the event twice. -/
theorem broadcast_emitted_once_per_player :
    Game.broadcastGameState [] 0 = [] ∧
    (Game.broadcastGameState [Character.init "a", Character.init "b"] 0).length
      = 2 ∧
    (Game.broadcastGameState [Character.init "a", Character.init "b"] 0).map
        Emission.target = [EmitTarget.all, EmitTarget.all] :=
  ⟨rfl, rfl, rfl⟩

end Stricker

namespace Stricker

/-! ## Attack resolution (C1) -/

/-- Reading back the animation just written through the pointer. -/
lemma Anims.get_set (A : Anims) (k : AnimKey) (a : AnimState) :
    (Anims.set A k a).get k = a := by
  cases k <;> rfl

/-- Overwriting the same slot twice keeps only the second write. -/
lemma Anims.set_set (A : Anims) (k : AnimKey) (a b : AnimState) :
    (Anims.set A k a).set k b = Anims.set A k b := by
  cases k <;> rfl

/-- The current animation after `setCurrentAnim` is the written state. -/
lemma currentAnim_setCurrentAnim (c : Character) (a : AnimState) :
    Character.currentAnim (Character.setCurrentAnim c a) = a := by
  simp [Character.currentAnim, Character.setCurrentAnim, Anims.get_set]

/-- The current animation after `pauseCurrent` is the paused one. -/
lemma currentAnim_pauseCurrent (c : Character) (n : ℕ) :
    Character.currentAnim (Character.pauseCurrent c n)
      = Animation.Pause (Character.currentAnim c) n := by
  simp [Character.pauseCurrent, currentAnim_setCurrentAnim]

/-- Pausing twice for the same length is the same as pausing once. -/
lemma pauseCurrent_idem (c : Character) (n : ℕ) :
    Character.pauseCurrent (Character.pauseCurrent c n) n
      = Character.pauseCurrent c n := by
  cases c
  simp [Character.pauseCurrent, Character.setCurrentAnim,
    Character.currentAnim, Anims.get_set, Anims.set_set, Animation.Pause]

/-- `hurt` enters the HURT action. -/
lemma hurt_action (c : Character) : (Character.hurt c).action = actionHURT :=
  rfl

/-- A surviving victim of `takeDamage`: health strictly above the
damage leaves the else-branch state and no emissions. -/
lemma takeDamage_surv (c : Character) (n : ℤ) (h : ¬ c.health - n ≤ 0) :
    Character.takeDamage c n = ({ c with health := c.health - n }, []) := by
  simp [Character.takeDamage, h]

/-- Unrolling `doAttackLoop`: the final attacker is paused iff some
player registered a hit, every hit player becomes `hitVictim`, the
others pass through unchanged, and the emissions are the concatenated
per-victim death notifications. -/
lemma doAttackLoop_spec (atk : Attack) (ps : List Character)
    (self : Character) :
    Character.doAttackLoop self atk ps =
      ((if ps.any (hitByB self atk) then Character.pauseCurrent self 5
        else self),
       ps.map (fun p => if hitByB self atk p then hitVictim p else p),
       (ps.map (fun p => if hitByB self atk p then hitVictimEmissions p
          else [])).flatten) := by
  induction ps generalizing self with
  | nil => simp [Character.doAttackLoop]
  | cons p rest ih =>
      have hB : hitByB (Character.pauseCurrent self 5) atk
          = hitByB self atk := rfl
      by_cases h : hitByB self atk p = true
      · have hprop : p.id ≠ self.id ∧
            checkCollisions atk.hitBox self.position hurtBox p.position
              = true := by
          simpa [hitByB] using h
        simp only [Character.doAttackLoop]
        rw [if_pos hprop, ih, hB, pauseCurrent_idem]
        simp [h, hitVictim, hitVictimEmissions, ite_self]
      · have hprop : ¬ (p.id ≠ self.id ∧
            checkCollisions atk.hitBox self.position hurtBox p.position
              = true) := by
          simpa [hitByB] using h
        simp only [Character.doAttackLoop]
        rw [if_neg hprop, ih]
        simp [h]

/-- `updateStep` at the punch trigger point: the sub-frame rolls over,
the index increments to 3 (below the clip's 6 indices, so no wrap) and
the registered callback at 3 fires. -/
lemma updateStep_at_trigger (a : AnimState)
    (ha1 : a.isDone = false) (ha2 : a.pauseFrames = 0)
    (ha3 : a.frame + 1 = a.framePerIndex) (ha4 : a.index + 1 = 3)
    (ha5 : (3 : ℕ) ∈ a.onIdx) (ha6 : a.frames = 6) :
    Animation.updateStep a = ({ a with frame := 0, index := 3 }, some 3) := by
  simp only [Animation.updateStep, ha1, ha2, ha3, ha4, ha5, ha6]
  norm_num

/-- The ATTACK.PUNCH branch of the dispatch switch is a no-op while the
punch animation is not done. -/
lemma dispatch_attack_not_done (x : Character) (dx dy : ℤ)
    (hx : x.action = actionATTACK_PUNCH)
    (hdone : (Character.currentAnim x).isDone = false) :
    Character.dispatch x dx dy = x := by
  simp only [Character.dispatch, hx]
  simp [hdone, actionNONE, actionHURT, actionATTACK_PUNCH]

end Stricker

namespace Stricker

/-- `updateCore` at the punch trigger: the whole per-tick update
reduces to the attack resolution (the dispatch branch is a no-op since
the punch clip is not done at index 3). -/
lemma updateCore_at_trigger (c : Character) (players : List Character)
    (atkT : String)
    (hact : c.action = actionATTACK_PUNCH)
    (hcur : (c.current = AnimKey.punch ∧ atkT = "punch") ∨
            (c.current = AnimKey.punchR ∧ atkT = "punchR"))
    (ha1 : (Character.currentAnim c).isDone = false)
    (ha2 : (Character.currentAnim c).pauseFrames = 0)
    (ha3 : (Character.currentAnim c).frame + 1
            = (Character.currentAnim c).framePerIndex)
    (ha4 : (Character.currentAnim c).index + 1 = 3)
    (ha5 : (3 : ℕ) ∈ (Character.currentAnim c).onIdx)
    (ha6 : (Character.currentAnim c).frames = 6) :
    Character.updateCore c players =
      Character.doAttack
        (Character.setCurrentAnim c
          { Character.currentAnim c with frame := 0, index := 3 })
        atkT players := by
  have hstep := updateStep_at_trigger (Character.currentAnim c)
    ha1 ha2 ha3 ha4 ha5 ha6
  have hdone1 : (Character.currentAnim (Character.setCurrentAnim c
      { Character.currentAnim c with frame := 0, index := 3 })).isDone
      = false := by
    rw [currentAnim_setCurrentAnim]
    exact ha1
  have hkey : ∀ atk : Attack,
      (Character.doAttackLoop (Character.setCurrentAnim c
          { Character.currentAnim c with frame := 0, index := 3 }) atk
        players).1.action = actionATTACK_PUNCH ∧
      (Character.currentAnim (Character.doAttackLoop
          (Character.setCurrentAnim c
            { Character.currentAnim c with frame := 0, index := 3 }) atk
          players).1).isDone = false := by
    intro atk
    rw [doAttackLoop_spec]
    dsimp only
    split_ifs with hany
    · refine ⟨hact, ?_⟩
      rw [currentAnim_pauseCurrent, currentAnim_setCurrentAnim]
      exact ha1
    · exact ⟨hact, hdone1⟩
  rcases hcur with ⟨hk, hT⟩ | ⟨hk, hT⟩ <;> subst hT
  · have h1 : Character.updateCore c players =
        (Character.dispatch
          (Character.doAttackLoop (Character.setCurrentAnim c
            { Character.currentAnim c with frame := 0, index := 3 })
            ⟨⟨⟨56, 24⟩, ⟨-56, -12⟩⟩⟩ players).1 (dxOf c.input)
            (dyOf c.input),
         (Character.doAttackLoop (Character.setCurrentAnim c
            { Character.currentAnim c with frame := 0, index := 3 })
            ⟨⟨⟨56, 24⟩, ⟨-56, -12⟩⟩⟩ players).2.1,
         (Character.doAttackLoop (Character.setCurrentAnim c
            { Character.currentAnim c with frame := 0, index := 3 })
            ⟨⟨⟨56, 24⟩, ⟨-56, -12⟩⟩⟩ players).2.2) := by
      simp only [Character.updateCore, hstep, hk, Character.doAttack, attacks]
      simp
    rw [h1, dispatch_attack_not_done _ _ _ (hkey _).1 (hkey _).2]
    rfl
  · have h1 : Character.updateCore c players =
        (Character.dispatch
          (Character.doAttackLoop (Character.setCurrentAnim c
            { Character.currentAnim c with frame := 0, index := 3 })
            ⟨⟨⟨56, 24⟩, ⟨0, -12⟩⟩⟩ players).1 (dxOf c.input)
            (dyOf c.input),
         (Character.doAttackLoop (Character.setCurrentAnim c
            { Character.currentAnim c with frame := 0, index := 3 })
            ⟨⟨⟨56, 24⟩, ⟨0, -12⟩⟩⟩ players).2.1,
         (Character.doAttackLoop (Character.setCurrentAnim c
            { Character.currentAnim c with frame := 0, index := 3 })
            ⟨⟨⟨56, 24⟩, ⟨0, -12⟩⟩⟩ players).2.2) := by
      simp only [Character.updateCore, hstep, hk, Character.doAttack, attacks]
      simp
    rw [h1, dispatch_attack_not_done _ _ _ (hkey _).1 (hkey _).2]
    rfl

end Stricker

namespace Stricker

/-- C1 amended: when a character's punch animation reaches the
configured trigger index 3 during its per-tick `update`, the attack
resolves against every other entity in the player list.  The
post-update list is exactly the input list with every overlapping
other entity replaced by its hit state; an overlapping other entity
that survives the 10 damage (health > 10) ends in the HURT action with
its health lowered by exactly 10 and its current animation sequencer
paused for 5 ticks; and if any other entity overlapped at all, the
attacker's current animation sequencer is paused 5 ticks as well.  (An
overlapped entity whose health is ≤ 10 is killed instead: the death
handling inside `takeDamage` forces its action to NONE — see the
counterexample.) -/
theorem punch_trigger_resolves_hits (c : Character)
    (players : List Character) (atkT : String) (atk : Attack)
    (hact : c.action = actionATTACK_PUNCH)
    (hcur : (c.current = AnimKey.punch ∧ atkT = "punch") ∨
            (c.current = AnimKey.punchR ∧ atkT = "punchR"))
    (hatk : attacks atkT = some atk)
    (ha1 : (Character.currentAnim c).isDone = false)
    (ha2 : (Character.currentAnim c).pauseFrames = 0)
    (ha3 : (Character.currentAnim c).frame + 1
            = (Character.currentAnim c).framePerIndex)
    (ha4 : (Character.currentAnim c).index + 1 = 3)
    (ha5 : (3 : ℕ) ∈ (Character.currentAnim c).onIdx)
    (ha6 : (Character.currentAnim c).frames = 6) :
    ((Character.update c players).2.1 =
        players.map fun p => if hitByB c atk p then hitVictim p else p) ∧
    (∀ p : Character, hitByB c atk p = true → 10 < p.health →
        (hitVictim p).action = actionHURT ∧
        (hitVictim p).health = p.health - 10 ∧
        (Character.currentAnim (hitVictim p)).pauseFrames = 5) ∧
    (players.any (hitByB c atk) = true →
        (Character.currentAnim (Character.update c players).1).pauseFrames
          = 5) := by
  have hcore := updateCore_at_trigger c players atkT hact hcur
    ha1 ha2 ha3 ha4 ha5 ha6
  have hda : Character.doAttack
      (Character.setCurrentAnim c
        { Character.currentAnim c with frame := 0, index := 3 }) atkT players
      = Character.doAttackLoop
          (Character.setCurrentAnim c
            { Character.currentAnim c with frame := 0, index := 3 }) atk
          players := by
    simp [Character.doAttack, hatk]
  have hB : hitByB (Character.setCurrentAnim c
      { Character.currentAnim c with frame := 0, index := 3 }) atk
      = hitByB c atk := rfl
  have h21 : (Character.update c players).2.1
      = (Character.updateCore c players).2.1 := rfl
  have h1anim : Character.currentAnim (Character.update c players).1
      = Character.currentAnim (Character.updateCore c players).1 := rfl
  refine ⟨?_, ?_, ?_⟩
  · rw [h21, hcore, hda, doAttackLoop_spec]
    dsimp only
    rw [hB]
  · intro p hp hs
    have hh : (Character.hurt p).health = p.health := hurt_health p
    have hsurv : ¬ (Character.hurt p).health - 10 ≤ 0 := by omega
    refine ⟨?_, ?_, ?_⟩
    · show (Character.pauseCurrent
          (Character.takeDamage (Character.hurt p) 10).1 5).action
          = actionHURT
      rw [takeDamage_surv _ _ hsurv]
      exact hurt_action p
    · show (Character.pauseCurrent
          (Character.takeDamage (Character.hurt p) 10).1 5).health
          = p.health - 10
      rw [takeDamage_surv _ _ hsurv]
      rfl
    · show (Character.currentAnim (Character.pauseCurrent
          (Character.takeDamage (Character.hurt p) 10).1 5)).pauseFrames = 5
      rw [currentAnim_pauseCurrent]
      rfl
  · intro hany
    rw [h1anim, hcore, hda, doAttackLoop_spec]
    dsimp only
    rw [hB, if_pos hany, currentAnim_pauseCurrent]
    rfl

/-- C1 counterexample: target `tgtB` stands inside attacker `atkA`'s
facing-right punch hitbox and is not already dead (health 10 > 0), so
the claim as stated asserts it transitions into HURT; but the
10-damage hit is lethal, and the death handling inside `takeDamage`
forces the target's action to NONE — not HURT — with health clamped
to 0. -/
theorem lethal_target_ends_none_not_hurt :
    checkCollisions (⟨⟨⟨56, 24⟩, ⟨0, -12⟩⟩⟩ : Attack).hitBox atkA.position
        hurtBox tgtB.position = true ∧
    tgtB.health = 10 ∧ 0 < tgtB.health ∧
    (Character.update atkA [tgtB]).2.1.map Character.action
      = [actionNONE] ∧
    (Character.update atkA [tgtB]).2.1.map Character.health = [0] ∧
    actionNONE ≠ actionHURT := by
  have hcol : checkCollisions (⟨⟨⟨56, 24⟩, ⟨0, -12⟩⟩⟩ : Attack).hitBox
      atkA.position hurtBox tgtB.position = true := by
    norm_num [checkCollisions, atkA, tgtB, hurtBox, Character.init]
  have hhit : hitByB atkA ⟨⟨⟨56, 24⟩, ⟨0, -12⟩⟩⟩ tgtB = true := by
    norm_num [hitByB, checkCollisions, atkA, tgtB, hurtBox, Character.init]
    decide
  have hupd := punch_trigger_resolves_hits atkA [tgtB] "punchR"
    ⟨⟨⟨56, 24⟩, ⟨0, -12⟩⟩⟩ rfl (Or.inr ⟨rfl, rfl⟩) rfl rfl rfl rfl rfl
    (by decide) rfl
  refine ⟨hcol, rfl, by decide, ?_, ?_, by decide⟩
  · rw [hupd.1]
    have hv : (hitVictim tgtB).action = actionNONE := by
      simp [hitVictim, Character.pauseCurrent, Character.setCurrentAnim,
        Character.takeDamage, Character.hurt, Character.resetToDeadState,
        Character.handleDeath, tgtB, Character.init, actionNONE]
    simp [hhit, hv]
  · rw [hupd.1]
    have hv : (hitVictim tgtB).health = 0 := by
      simp [hitVictim, Character.pauseCurrent, Character.setCurrentAnim,
        Character.takeDamage, Character.hurt, Character.resetToDeadState,
        Character.handleDeath, tgtB, Character.init]
    simp [hhit, hv]

/-- Witness for `punch_trigger_resolves_hits`: attacker `atkA` punching
right into the full-health target `tgtC`. -/
theorem punch_trigger_resolves_hits_witness :
    ((hitVictim tgtC).action = actionHURT ∧
     (hitVictim tgtC).health = tgtC.health - 10 ∧
     (Character.currentAnim (hitVictim tgtC)).pauseFrames = 5) ∧
    (Character.currentAnim (Character.update atkA [tgtC]).1).pauseFrames
      = 5 := by
  have hcol : checkCollisions (⟨⟨⟨56, 24⟩, ⟨0, -12⟩⟩⟩ : Attack).hitBox
      atkA.position hurtBox tgtC.position = true := by
    norm_num [checkCollisions, atkA, tgtC, hurtBox, Character.init]
  have hhit : hitByB atkA ⟨⟨⟨56, 24⟩, ⟨0, -12⟩⟩⟩ tgtC = true := by
    norm_num [hitByB, checkCollisions, atkA, tgtC, hurtBox, Character.init]
    decide
  have hupd := punch_trigger_resolves_hits atkA [tgtC] "punchR"
    ⟨⟨⟨56, 24⟩, ⟨0, -12⟩⟩⟩ rfl (Or.inr ⟨rfl, rfl⟩) rfl rfl rfl rfl rfl
    (by decide) rfl
  exact ⟨hupd.2.1 tgtC hhit (by decide), hupd.2.2 (by simp [hhit])⟩

end Stricker
